import Mathlib

/-!
Verification of the PathoAssist overlay-pipeline core.

This file shallowly embeds the data model and operations of the
`backend` package: the pipeline registry (`overlay_pipelines/__init__.py`),
the frame-processing entry point (`video_capture.py`), the parameter
merge performed by every pipeline, the fluorescence pipeline's pixel
arithmetic, the cell-count pipeline's post-segmentation filtering, the
estrogen-receptor scoring rules, and the learned pipelines' lazy
model-load state machine.  Machine floats on the segmentation front ends
(LAB conversion, Otsu, watershed, neural inference) are not exactly
representable, so those stages are taken as the inputs of the embedded
downstream computations; everything downstream is translated line by
line from the source.
-/

namespace PathoAssist

/-- Scalar / small-array parameter values, mirroring the value kinds that
occur in the pipelines' `default_params` dictionaries. -/
inductive Value where
  | int (n : ℤ)
  | rat (x : ℚ)
  | bool (b : Bool)
  | pair (a b : ℤ)
  | rgb (r g b : ℤ)
deriving DecidableEq

/-- A parameter mapping: string keys to values (a Python dict, in
insertion order, keys unique). -/
abbrev Params := List (String × Value)

/-- First-match association lookup, the semantics of `d.get(k)` /
`d[k]` on a Python dict represented in insertion order. -/
def lookupParam : Params → String → Option Value
  | [], _ => none
  | (k, v) :: rest, key => if k = key then some v else lookupParam rest key

/-- Embedding of the dict-splat merge `{**d, **o}` used by
every pipeline (`cell_count_pipeline.py` line 48, `fluorescence_pipeline.py`
line 49, and the same line in the other pipelines): keys of `d` keep their
position, caller values win, keys only in `o` are appended in order. -/
def mergeParams (d o : Params) : Params :=
  d.map (fun kv =>
    match lookupParam o kv.1 with
    | some v => (kv.1, v)
    | none => kv)
  ++ o.filter (fun kv => (lookupParam d kv.1).isNone)

/-- Metric values: numbers, strings, or nested mappings, mirroring the
`Dict[str, Any]` metrics payloads. -/
inductive MVal where
  | int (n : ℤ)
  | rat (x : ℚ)
  | str (t : String)
  | dict (m : List (String × MVal))

/-- A metrics mapping, freshly computed per call. -/
abbrev Metrics := List (String × MVal)

/-- A pipeline instance (`overlay_pipeline.py`): descriptor metadata plus
the `process` operation.  `F` is the frame type; `process` returns `none`
when the Python call would raise an exception. -/
structure OverlayPipeline (F : Type) where
  name : String
  display_name : String
  description : String
  default_params : Params
  param_descriptions : List (String × String)
  process : F → Params → Option (F × Metrics)

/-- Configuration for a pipeline (`overlay_pipelines/__init__.py`,
`PipelineConfig`). -/
structure PipelineConfig where
  name : String
  params : Params

/-- The registry `_PIPELINES`: a mapping from pipeline name to instance,
in insertion order. -/
abbrev Registry (F : Type) := List (String × OverlayPipeline F)

/-- Python dict assignment `d[k] = v`: replaces the value at an existing
key in place (keeping its position), otherwise appends. -/
def dictInsert {F : Type} : Registry F → String → OverlayPipeline F → Registry F
  | [], k, v => [(k, v)]
  | (k0, v0) :: rest, k, v =>
      if k0 = k then (k, v) :: rest else (k0, v0) :: dictInsert rest k v

/-- Embedding of `register_pipeline` (`overlay_pipelines/__init__.py` lines 28-30):
`_PIPELINES[pipeline.name] = pipeline`. -/
def register_pipeline {F : Type} (r : Registry F) (p : OverlayPipeline F) : Registry F :=
  dictInsert r p.name p

/-- Embedding of `get_pipeline_by_name` (lines 33-35): `_PIPELINES.get(name)`. -/
def get_pipeline_by_name {F : Type} : Registry F → String → Option (OverlayPipeline F)
  | [], _ => none
  | (k, v) :: rest, name => if k = name then some v else get_pipeline_by_name rest name

/-- Embedding of `list_available_pipelines` (lines 38-40): enumerates the registry's
values in order (here as the pipeline instances themselves; the
`to_api_model` projection keeps only descriptor fields). -/
def list_available_pipelines {F : Type} (r : Registry F) : List (OverlayPipeline F) :=
  r.map (fun kv => kv.2)

/-- Descriptor built by `CellCountPipeline.__init__` (`cell_count_pipeline.py` lines 17-34):
descriptor metadata and defaults.  The numeric `process` body is supplied
as a parameter (its float front end is not exactly embeddable; its
post-segmentation stage is embedded separately as `cellCountSegment`). -/
def CellCountPipeline (F : Type) (proc : F → Params → Option (F × Metrics)) :
    OverlayPipeline F :=
  { name := "cell_count"
    display_name := "Cell Count Overlay"
    description := "Detects and counts cells in microscope images"
    default_params :=
      [("threshold", Value.rat (9 / 10)),
       ("min_size", Value.int 50),
       ("max_size", Value.int 1000),
       ("show_contours", Value.bool true)]
    param_descriptions :=
      [("threshold", "Threshold value for binary conversion (0-1)"),
       ("min_size", "Minimum cell size in pixels"),
       ("max_size", "Maximum cell size in pixels"),
       ("show_contours", "Whether to draw contours around detected cells")]
    process := proc }

/-- Descriptor built by `FluorescencePipeline.__init__` (`fluorescence_pipeline.py`
lines 12-35).  `color_map` holds `cv2.COLORMAP_JET = 2`. -/
def FluorescencePipeline (F : Type) (proc : F → Params → Option (F × Metrics)) :
    OverlayPipeline F :=
  { name := "fluorescence"
    display_name := "Fluorescence Detection"
    description := "Detects and measures fluorescence intensity in microscope images"
    default_params :=
      [("threshold", Value.int 50),
       ("color_map", Value.int 2),
       ("alpha", Value.rat (1 / 2)),
       ("show_intensity", Value.bool true),
       ("intensity_position", Value.pair 10 30),
       ("font_scale", Value.rat 1),
       ("font_color", Value.rgb 255 255 255)]
    param_descriptions :=
      [("threshold", "Threshold value for fluorescence detection (0-255)"),
       ("color_map", "OpenCV colormap to apply (0-21)"),
       ("alpha", "Transparency of the overlay (0.0-1.0)"),
       ("show_intensity", "Whether to show the intensity value on the image"),
       ("intensity_position", "Position [x, y] to display the intensity"),
       ("font_scale", "Scale of the font for the intensity"),
       ("font_color", "RGB color for the intensity text")]
    process := proc }

/-- Descriptor built by `EstrogenReceptorPipeline.__init__`
(`estrogen_receptor_pipeline.py` lines 16-35). -/
def EstrogenReceptorPipeline (F : Type) (proc : F → Params → Option (F × Metrics)) :
    OverlayPipeline F :=
  { name := "estrogen_receptor"
    display_name := "Estrogen Receptor Overlay"
    description := "Detects and scores estrogen receptor (ER) staining in microscope images."
    default_params :=
      [("min_size", Value.int 50),
       ("max_eccentricity", Value.rat (9 / 10)),
       ("show_contours", Value.bool true),
       ("contour_color_blue", Value.rgb 0 0 255),
       ("contour_color_brown", Value.rgb 255 255 255)]
    param_descriptions :=
      [("min_size", "Minimum object size in pixels"),
       ("max_eccentricity", "Maximum eccentricity for round objects"),
       ("show_contours", "Whether to draw contours around detected cells"),
       ("contour_color_blue", "RGB color for blue cell contours"),
       ("contour_color_brown", "RGB color for brown cell contours")]
    process := proc }

/-- Descriptor built by `NottinghamTubulePipeline.__init__`
(`nottingham_tubule_pipeline.py` lines 12-26). -/
def NottinghamTubulePipeline (F : Type) (proc : F → Params → Option (F × Metrics)) :
    OverlayPipeline F :=
  { name := "nottingham_tubule"
    display_name := "Nottingham Tubular Formation"
    description := "Segments tubule regions and computes Nottingham tubule score."
    default_params :=
      [("min_size", Value.int 500), ("hole_size", Value.int 500),
       ("threshold", Value.rat (1 / 2))]
    param_descriptions :=
      [("min_size", "Minimum object size in pixels for cleaning mask."),
       ("hole_size", "Maximum hole size to fill in mask."),
       ("threshold", "Threshold for mask binarization (0-1).")]
    process := proc }

/-- Descriptor built by `NuclearPleomorphismPipeline.__init__`
(`nuclear_pleomorphism_pipeline.py` lines 13-26). -/
def NuclearPleomorphismPipeline (F : Type) (proc : F → Params → Option (F × Metrics)) :
    OverlayPipeline F :=
  { name := "nuclear_pleomorphism"
    display_name := "Nottingham Nuclear Pleomorphism"
    description := "Segments nuclei and outputs the segmentation mask for nuclear pleomorphism scoring."
    default_params :=
      [("min_size", Value.int 50), ("threshold", Value.rat (3 / 10))]
    param_descriptions :=
      [("min_size", "Minimum object size in pixels for cleaning mask."),
       ("threshold", "Threshold for mask binarization (0-1).")]
    process := proc }

/-- Startup registration (`overlay_pipelines/__init__.py` lines 43-45):
exactly two `register_pipeline` calls run at import time, for
`CellCountPipeline()` and `FluorescencePipeline()`. -/
def startupRegistry (F : Type) (ccProc flProc : F → Params → Option (F × Metrics)) :
    Registry F :=
  register_pipeline (register_pipeline [] (CellCountPipeline F ccProc))
    (FluorescencePipeline F flProc)

/-- A trivial passthrough `process` used to instantiate pipeline
instances in closed witness statements (the registry operations never
inspect `process`). -/
def idProcess (F : Type) : F → Params → Option (F × Metrics) :=
  fun f _ => some (f, [])

/-- Embedding of `VideoCapture.process_frame` (`video_capture.py` lines 163-185):
look the pipeline up by name; if absent, return the original frame and an
empty metrics dict; if `process` raises (modelled by `none`), catch and
return the original frame and an empty metrics dict. -/
def process_frame {F : Type} (r : Registry F) (frame : F) (cfg : PipelineConfig) :
    F × Metrics :=
  match get_pipeline_by_name r cfg.name with
  | none => (frame, [])
  | some pl =>
      match pl.process frame cfg.params with
      | some out => out
      | none => (frame, [])

/-! Fluorescence pipeline, pixel arithmetic
(`fluorescence_pipeline.py`, `process`, lines 37-109)

Frames are OpenCV images: row-major grids of `(B, G, R)` 8-bit channel
triples.  The colormap lookup `cv2.applyColorMap(gray, p["color_map"])`
is a table selected by the caller-supplied integer parameter; the family
of tables is passed to the embedding as the function `cmaps`, and the
text rasterizer `cv2.putText` as `TextPrims`. -/

/-- One BGR pixel (channel values 0-255). -/
abbrev Pix3 := ℕ × ℕ × ℕ

/-- A 3-channel frame. -/
abbrev Frame3 := List (List Pix3)

/-- Embedding of `cv2.cvtColor(frame, cv2.COLOR_BGR2GRAY)` on 8-bit data: OpenCV's
fixed-point weights R2Y = 4899, G2Y = 9617, B2Y = 1868 with a 14-bit
descale (round-half-up via the `+ 8192`). -/
def bgr2grayPix (p : Pix3) : ℕ :=
  (1868 * p.1 + 9617 * p.2.1 + 4899 * p.2.2 + 8192) / 16384

/-- Grayscale conversion of a whole frame (lines 52-53). -/
def grayFrame (f : Frame3) : List (List ℕ) :=
  f.map (fun row => row.map bgr2grayPix)

/-- Embedding of `cv2.threshold(gray, t, 255, cv2.THRESH_BINARY)` (line 58): a pixel
is in the mask iff its gray value is strictly above the threshold. -/
def threshBinary (g : List (List ℕ)) (t : ℚ) : List (List Bool) :=
  g.map (fun row => row.map (fun v => decide (t < (v : ℚ))))

/-- Rounding as OpenCV's `cvRound`: round half to even. -/
def cvRound (x : ℚ) : ℤ :=
  let f := ⌊x⌋
  let r := x - (f : ℚ)
  if r < 1 / 2 then f
  else if 1 / 2 < r then f + 1
  else if f % 2 = 0 then f else f + 1

/-- Saturation to the 8-bit range, `saturate_cast<uchar>`. -/
def satUint8 (n : ℤ) : ℕ := (max 0 (min 255 n)).toNat

/-- One channel of `cv2.addWeighted(src1, a, src2, 1 - a, 0)`
(lines 71-78): saturated rounding of the convex blend. -/
def addWeightedChan (a : ℚ) (c1 c2 : ℕ) : ℕ :=
  satUint8 (cvRound (a * (c1 : ℚ) + (1 - a) * (c2 : ℚ)))

/-- Blend `addWeighted` on a BGR pixel. -/
def addWeightedPix (a : ℚ) (p q : Pix3) : Pix3 :=
  (addWeightedChan a p.1 q.1, addWeightedChan a p.2.1 q.2.1,
   addWeightedChan a p.2.2 q.2.2)

/-- Pointwise combination of two frames of equal shape. -/
def zipFrame (f : Pix3 → Pix3 → Pix3) : Frame3 → Frame3 → Frame3 :=
  List.zipWith (List.zipWith f)

/-- Typed reads from a merged parameter dict.  The merged dict always
contains the pipeline's declared keys, so the fallbacks are unreachable
on well-typed calls. -/
def Value.asRat : Value → ℚ
  | Value.int n => (n : ℚ)
  | Value.rat x => x
  | _ => 0

def Value.asInt : Value → ℤ
  | Value.int n => n
  | _ => 0

def Value.asBool : Value → Bool
  | Value.bool b => b
  | _ => false

def Value.asPair : Value → ℤ × ℤ
  | Value.pair a b => (a, b)
  | _ => (0, 0)

def Value.asRgb : Value → ℤ × ℤ × ℤ
  | Value.rgb r g b => (r, g, b)
  | _ => (0, 0, 0)

/-- Subscript read `p[k]` on a merged parameter dict. -/
def pget (p : Params) (k : String) : Value :=
  (lookupParam p k).getD (Value.int 0)

/-- Defaults `FluorescencePipeline.default_params` (lines 18-26). -/
def fluorescenceDefaultParams : Params :=
  (FluorescencePipeline Frame3 (idProcess Frame3)).default_params

/-- The external text rasterizer `cv2.putText`: draws the average
intensity caption onto a frame, given position, font scale and color. -/
structure TextPrims where
  putText : Frame3 → ℤ → ℤ × ℤ → ℚ → ℤ × ℤ × ℤ → Frame3

/-- Minimum of a nonempty natural list (`np.min`). -/
def natListMin : List ℕ → ℕ
  | [] => 0
  | x :: xs => xs.foldl min x

/-- Maximum of a natural list (`np.max`). -/
def natListMax : List ℕ → ℕ
  | [] => 0
  | x :: xs => xs.foldl max x

/-- Truncated mean, `int(np.mean(l))` for nonnegative values. -/
def natListAvg (l : List ℕ) : ℕ := l.sum / l.length

/-- Embedding of `FluorescencePipeline.process` (lines 37-109) for 3-channel frames.
`cmaps` is the family of OpenCV colormap tables indexed by the
`color_map` parameter.  Note that the computed `mask_3channel`
(lines 67-68) is never consulted by the blend: `cv2.addWeighted` writes
the blend of `colored` and `result` over the whole frame. -/
def fluorescenceProcess (cmaps : ℤ → ℕ → Pix3) (TP : TextPrims)
    (frame : Frame3) (params : Params) : Frame3 × Metrics :=
  let p := mergeParams fluorescenceDefaultParams params
  let gray := grayFrame frame
  let thr := (pget p "threshold").asRat
  let mask := threshBinary gray thr
  let cmap := cmaps (pget p "color_map").asInt
  let colored := gray.map (fun row => row.map cmap)
  let alpha := (pget p "alpha").asRat
  let result0 := frame
  let result1 := zipFrame (fun cp rp => addWeightedPix alpha cp rp) colored result0
  let grayFlat := gray.flatten
  let maskFlat := mask.flatten
  let anyMask := maskFlat.any (fun b => b)
  let fluorescentPixels := (grayFlat.zip maskFlat).filterMap
    (fun x => if x.2 then some x.1 else none)
  let areaPct : ℚ := ((maskFlat.filter (fun b => b)).length : ℚ) / (maskFlat.length : ℚ) * 100
  let avg := natListAvg fluorescentPixels
  let intensityMetrics : Metrics :=
    if anyMask then
      [("min_intensity", MVal.int (natListMin fluorescentPixels : ℤ)),
       ("max_intensity", MVal.int (natListMax fluorescentPixels : ℤ)),
       ("avg_intensity", MVal.int (avg : ℤ)),
       ("area_percentage", MVal.rat areaPct)]
    else []
  let result2 :=
    if anyMask && (pget p "show_intensity").asBool then
      TP.putText result1 (avg : ℤ) (pget p "intensity_position").asPair
        (pget p "font_scale").asRat (pget p "font_color").asRgb
    else result1
  (result2, [("intensity", MVal.dict intensityMetrics), ("area_percentage", MVal.rat areaPct)])

/-- A 1-by-1 all-black frame. -/
def blackFrame1 : Frame3 := [[(0, 0, 0)]]

/-- A colormap family agreeing with OpenCV `COLORMAP_JET` (index 2) at
gray level 0, whose table entry is the dark-blue BGR triple
`(128, 0, 0)`.  Gray level 0 is the only level occurring in
`blackFrame1`, so `fluorescenceProcess` consults no other entry. -/
def jetAtZero : ℤ → ℕ → Pix3 := fun _ _ => (128, 0, 0)

/-- A text rasterizer that draws nothing (never invoked on `blackFrame1`,
whose mask is empty). -/
def noText : TextPrims := ⟨fun f _ _ _ _ => f⟩

/-- Defaults `CellCountPipeline.default_params` (lines 23-28). -/
def cellCountDefaultParams : Params :=
  (CellCountPipeline Unit (idProcess Unit)).default_params

/-- A second pipeline instance carrying the already-registered name
"cell_count", used to exercise duplicate registration. -/
def cellCountVariant (F : Type) (proc : F → Params → Option (F × Metrics)) :
    OverlayPipeline F :=
  { name := "cell_count"
    display_name := "Cell Count Overlay (variant)"
    description := "An alternative cell counting pipeline"
    default_params := []
    param_descriptions := []
    process := proc }

/-! Learned pipelines: lazy model-load state machine.

Both `NottinghamTubulePipeline` and `NuclearPleomorphismPipeline` hold
the mutable cell `self.model / self.device / self._model_loaded`
(initialised `None / None / False` in `__init__`) and guard every
`process` call with `if not self._model_loaded or self.model is None:
self._load_model(path)` (`nottingham_tubule_pipeline.py` lines 74-78,
`nuclear_pleomorphism_pipeline.py` lines 225-229).  `_load_model` first
constructs the untrained network and assigns it to `self.model`, then
`torch.load`s the artifact (raising if it is missing) and
`load_state_dict`s it (raising on a shape mismatch); `self._model_loaded
= True` is its last statement, so a failure leaves the flag false.  The
numeric inference is irrelevant to the load discipline and is not
modelled here. -/

/-- The value held in `self.model`: the freshly constructed network, or
the network after its trained weights were loaded. -/
inductive TorchModel where
  | unetFresh
  | unetLoaded
deriving DecidableEq

/-- The condition of the on-disk model artifact: loadable, absent, or
present with mismatched shapes. -/
inductive ArtifactState where
  | present
  | missing
  | shapeMismatch
deriving DecidableEq

/-- The exception `_load_model` lets escape. -/
inductive LoadError where
  | artifactMissing
  | stateDictMismatch
deriving DecidableEq

/-- The pipeline-owned mutable cell (fields of the Python instance). -/
structure LearnedState where
  model : Option TorchModel
  device : Option String
  model_loaded : Bool
deriving DecidableEq

/-- State set by `__init__`: `self.model = None; self.device = None;
self._model_loaded = False`. -/
def initLearnedState : LearnedState :=
  { model := none, device := none, model_loaded := false }

/-- Embedding of `_load_model` (`nottingham_tubule_pipeline.py` lines
28-43; `nuclear_pleomorphism_pipeline.py` lines 28-121 follow the same
discipline, additionally stripping an optional `mask_values` key):
select the device, assign the fresh network to `self.model`, then load
the artifact; on failure the assignment to `self._model_loaded` is never
reached and the exception (second component) propagates. -/
def load_model (cudaAvailable : Bool) (art : ArtifactState) (s : LearnedState) :
    LearnedState × Option LoadError :=
  let dev := if cudaAvailable then "cuda" else "cpu"
  let s1 : LearnedState :=
    { s with device := some dev, model := some TorchModel.unetFresh }
  match art with
  | ArtifactState.missing => (s1, some LoadError.artifactMissing)
  | ArtifactState.shapeMismatch => (s1, some LoadError.stateDictMismatch)
  | ArtifactState.present =>
      ({ s1 with model := some TorchModel.unetLoaded, model_loaded := true }, none)

/-- The exception value by artifact condition (none when the load
succeeds). -/
def loadFailure : ArtifactState → Option LoadError
  | ArtifactState.present => none
  | ArtifactState.missing => some LoadError.artifactMissing
  | ArtifactState.shapeMismatch => some LoadError.stateDictMismatch

/-- State after a failed `_load_model`: device selected and the fresh
network assigned, but `_model_loaded` untouched. -/
def failedState (cuda : Bool) (s : LearnedState) : LearnedState :=
  { s with device := some (if cuda then "cuda" else "cpu"), model := some TorchModel.unetFresh }

/-- One `process` call, restricted to its load discipline: the guard
`if not self._model_loaded or self.model is None` decides whether
`_load_model` runs.  Returns the new state, whether the load routine was
invoked on this call, and the exception propagated to the caller (if
any). -/
def processLearnedStep (cuda : Bool) (art : ArtifactState) (s : LearnedState) :
    LearnedState × Bool × Option LoadError :=
  if !s.model_loaded || s.model.isNone then
    let r := load_model cuda art s
    (r.1, true, r.2)
  else (s, false, none)

/-- A sequence of `n` `process` calls on the same instance: final state
and the total number of `_load_model` invocations. -/
def processLearnedCalls (cuda : Bool) (art : ArtifactState) :
    ℕ → LearnedState → LearnedState × ℕ
  | 0, s => (s, 0)
  | n + 1, s =>
      let r := processLearnedStep cuda art s
      let rest := processLearnedCalls cuda art n r.1
      (rest.1, (if r.2.1 then 1 else 0) + rest.2)

/-! Connected components on boolean grids, with the semantics of the
scikit-image helpers the pipelines call: `remove_small_objects` drops the
connected components (default connectivity 1, the orthogonal
neighbourhood) that have fewer than `min_size` pixels;
`remove_small_holes` complements, drops background components of at most
`area_threshold` pixels, and complements back; `measure.label` (default
connectivity 2, the 8-neighbourhood) numbers the components.
Components are computed by a fuelled flood fill, with fuel the number of
grid cells. -/

/-- A binary mask: a row-major grid of booleans. -/
abbrev BMask := List (List Bool)

/-- Membership of a cell in a mask (cells outside the grid are
background). -/
def cellAt (m : BMask) (c : ℕ × ℕ) : Bool :=
  (m.getD c.1 []).getD c.2 false

/-- The orthogonal neighbours of a cell (connectivity 1). -/
def neighbors4 (c : ℕ × ℕ) : List (ℕ × ℕ) :=
  (if c.1 = 0 then [] else [(c.1 - 1, c.2)]) ++
  (if c.2 = 0 then [] else [(c.1, c.2 - 1)]) ++
  [(c.1 + 1, c.2), (c.1, c.2 + 1)]

/-- All eight neighbours of a cell (connectivity 2). -/
def neighbors8 (c : ℕ × ℕ) : List (ℕ × ℕ) :=
  neighbors4 c ++
  (if c.1 = 0 then []
   else (if c.2 = 0 then [] else [(c.1 - 1, c.2 - 1)]) ++ [(c.1 - 1, c.2 + 1)]) ++
  (if c.2 = 0 then [] else [(c.1 + 1, c.2 - 1)]) ++
  [(c.1 + 1, c.2 + 1)]

/-- One flood-fill expansion step within the mask. -/
def growComponent (nb : ℕ × ℕ → List (ℕ × ℕ)) (m : BMask)
    (cur : List (ℕ × ℕ)) : List (ℕ × ℕ) :=
  (cur ++ (cur.flatMap nb).filter (fun c => cellAt m c)).dedup

/-- Iterated flood fill. -/
def iterGrow (nb : ℕ × ℕ → List (ℕ × ℕ)) (m : BMask) :
    ℕ → List (ℕ × ℕ) → List (ℕ × ℕ)
  | 0, cur => cur
  | n + 1, cur => iterGrow nb m n (growComponent nb m cur)

/-- Number of foreground pixels of a mask (`np.sum(mask)`). -/
def maskArea (m : BMask) : ℕ :=
  (m.map (fun row => row.countP (fun b => b))).sum

/-- The connected component of a cell: flood fill with fuel the grid
size. -/
def component (nb : ℕ × ℕ → List (ℕ × ℕ)) (m : BMask) (c : ℕ × ℕ) :
    List (ℕ × ℕ) :=
  if cellAt m c then iterGrow nb m ((m.map List.length).sum) [c] else []

/-- Rebuild a mask of the same shape from a per-cell predicate. -/
def mapMask (m : BMask) (f : ℕ × ℕ → Bool) : BMask :=
  (List.range m.length).map (fun i =>
    (List.range ((m.getD i []).length)).map (fun j => f (i, j)))

/-- Embedding of `skimage.morphology.remove_small_objects(mask, min_size)`:
keep a foreground cell iff its connected component (connectivity 1) has
at least `min_size` pixels. -/
def removeSmallObjects (m : BMask) (minSize : ℕ) : BMask :=
  mapMask m (fun c =>
    cellAt m c && decide (minSize ≤ (component neighbors4 m c).length))

/-- Pointwise complement of a mask. -/
def complementMask (m : BMask) : BMask :=
  m.map (fun row => row.map (fun b => !b))

/-- Embedding of `skimage.morphology.remove_small_holes(mask,
area_threshold)`: fill the background components of at most
`area_threshold` pixels. -/
def removeSmallHoles (m : BMask) (area : ℕ) : BMask :=
  complementMask (removeSmallObjects (complementMask m) (area + 1))

/-- Lexicographic order on cells. -/
def lexLt (a b : ℕ × ℕ) : Bool :=
  a.1 < b.1 || (a.1 = b.1 && a.2 < b.2)

/-- Least cell of a list (its representative). -/
def minCell : List (ℕ × ℕ) → ℕ × ℕ
  | [] => (0, 0)
  | c :: cs => cs.foldl (fun a b => if lexLt b a then b else a) c

/-- All cell coordinates of a grid. -/
def allCells (m : BMask) : List (ℕ × ℕ) :=
  (List.range m.length).flatMap (fun i =>
    (List.range ((m.getD i []).length)).map (fun j => (i, j)))

/-- Number of connected components, as `skimage.measure.label(mask,
return_num=True)` reports it (8-connectivity): one per foreground cell
that is the least cell of its own component. -/
def countComponents (nb : ℕ × ℕ → List (ℕ × ℕ)) (m : BMask) : ℕ :=
  (allCells m).countP (fun c =>
    cellAt m c && decide (minCell (component nb m c) = c))

/-- Embedding of `CellCountPipeline.process` lines 79-106 from the
watershed labelling on: threshold the labels to a foreground mask, apply
`remove_small_objects(min_size)`, `remove_small_holes(min_size)` and
`remove_small_objects(min_size)` again, then report the cleaned mask, the
component count `cell_count` and `area_percent`.  The `max_size` entry of
`default_params` (line 26) is never read by `process`. -/
def cellCountSegment (labelGrid : List (List ℕ)) (min_size : ℕ) :
    BMask × ℕ × ℚ :=
  let binary0 : BMask := labelGrid.map (fun row => row.map (fun v => decide (0 < v)))
  let m1 := removeSmallObjects binary0 min_size
  let m2 := removeSmallHoles m1 min_size
  let m3 := removeSmallObjects m2 min_size
  let total := labelGrid.length * (labelGrid.headD []).length
  let areaPercent : ℚ := ((maskArea m3 : ℚ) / (total : ℚ)) * 100
  (m3, countComponents neighbors8 m3, areaPercent)

/-! Estrogen receptor scoring (`estrogen_receptor_pipeline.py`, `process`
lines 70-117).  The color-space front end — LAB + Otsu + watershed for
the brown mask (lines 41-60), fixed-range RGB thresholding with
eccentricity filtering for the blue mask (lines 61-68), `rgb2gray` for
the intensity image (line 98) — is floating-point; its outputs, the two
masks and the grayscale image (values in [0, 1]), are the inputs of the
embedded statistics and scoring stage. -/

/-- Row-major masked selection `gray_image[brown_mask]` (line 99). -/
def maskedValues (gray : List (List ℚ)) (m : BMask) : List ℚ :=
  (gray.flatten.zip m.flatten).filterMap
    (fun x => if x.2 then some x.1 else none)

/-- Ordered insertion, for sorting. -/
def sortedInsert (x : ℚ) : List ℚ → List ℚ
  | [] => [x]
  | y :: ys => if x ≤ y then x :: y :: ys else y :: sortedInsert x ys

/-- Insertion sort of rationals. -/
def sortQ (l : List ℚ) : List ℚ := l.foldr sortedInsert []

/-- Embedding of `np.median`: the middle element of the sorted list for
odd length, the mean of the two middle elements for even length. -/
def npMedian (l : List ℚ) : ℚ :=
  let s := sortQ l
  let n := s.length
  if n % 2 = 1 then s.getD (n / 2) 0
  else (s.getD (n / 2 - 1) 0 + s.getD (n / 2) 0) / 2

/-- The scoring outputs of `EstrogenReceptorPipeline.process`, named as
in its metrics dict (lines 134-144). -/
structure ERScore where
  blue_area_percent : ℚ
  brown_area_percent : ℚ
  brown_cell_percent : ℚ
  staining_score : ℕ
  stain_intensity : ℚ
  intensity_score : ℕ
  total_score : ℕ
  outcome : String
deriving DecidableEq

/-- Embedding of the statistics and scoring stage of
`EstrogenReceptorPipeline.process` (lines 70-117): area percentages,
the brown fraction of total stained area (0 when that total is 0), the
1/10/33/66 extent buckets, the median intensity within the brown mask
(score 1 and median 0 when no pixel is stained; 0.3/0.6 buckets,
inverted), the combined score and the outcome string. -/
def erScoring (blueMask brownMask : BMask) (gray : List (List ℚ)) : ERScore :=
  let total_pixels := gray.length * (gray.headD []).length
  let blue_pixels := maskArea blueMask
  let brown_pixels := maskArea brownMask
  let blue_area_percent : ℚ := ((blue_pixels : ℚ) / (total_pixels : ℚ)) * 100
  let brown_area_percent : ℚ := ((brown_pixels : ℚ) / (total_pixels : ℚ)) * 100
  let totalArea := blue_area_percent + brown_area_percent
  let brown_cell_percent : ℚ :=
    if 0 < totalArea then (brown_area_percent / totalArea) * 100 else 0
  let status : ℕ :=
    if brown_cell_percent < 1 then 1
    else if brown_cell_percent < 10 then 2
    else if brown_cell_percent < 33 then 3
    else if brown_cell_percent < 66 then 4
    else 5
  let intensity_values := maskedValues gray brownMask
  let median : ℚ := if intensity_values.length = 0 then 0 else npMedian intensity_values
  let intensity_status : ℕ :=
    if intensity_values.length = 0 then 1
    else if npMedian intensity_values < 3 / 10 then 3
    else if npMedian intensity_values < 6 / 10 then 2
    else 1
  let total_marks := status + intensity_status
  let outcome :=
    if total_marks ≤ 2 then "Negative"
    else if total_marks = 3 then "Low Positive"
    else "Positive"
  { blue_area_percent := blue_area_percent
    brown_area_percent := brown_area_percent
    brown_cell_percent := brown_cell_percent
    staining_score := status
    stain_intensity := median
    intensity_score := intensity_status
    total_score := total_marks
    outcome := outcome }

/-! Buffer-aliasing model of the `process` bodies.  Whether a pipeline
mutates its caller's frame is a question about which numpy buffer each
in-place operation writes, not about pixel values, so each `process` body
is traced over a store of buffers: every array-producing library call
allocates a fresh buffer whose contents are an arbitrary function of the
buffers it reads (the content functions are the `...Prims` parameters,
universally quantified in the theorems); `frame.copy()` allocates a fresh
buffer holding the input's contents; the in-place calls
(`cv2.drawContours`, `cv2.putText`, `cv2.addWeighted` with `dst=`,
`cv2.circle`, and numpy fancy-index assignments) overwrite the buffer
they target.  The traces below follow the statements of each `process`
line by line. -/

/-- A store of allocated buffers: the next free index and the contents at
each index. -/
structure Store (α : Type) where
  size : ℕ
  mem : ℕ → α

/-- Contents of buffer `i`. -/
def Store.read {α : Type} (σ : Store α) (i : ℕ) : α := σ.mem i

/-- Allocate a fresh buffer (at index `σ.size`) holding `x`. -/
def Store.alloc1 {α : Type} (σ : Store α) (x : α) : Store α :=
  { size := σ.size + 1, mem := fun i => if i = σ.size then x else σ.mem i }

/-- Overwrite buffer `j` in place with `x`. -/
def Store.write {α : Type} (σ : Store α) (j : ℕ) (x : α) : Store α :=
  { σ with mem := fun i => if i = j then x else σ.mem i }

/-- Content functions of the external array operations called by
`CellCountPipeline.process` (`cell_count_pipeline.py` lines 36-107). -/
structure CellCountPrims (α : Type) where
  toRgb : α → α
  toFloat : α → α
  toLab : α → α
  lumChannel : α → α
  binarize : α → α
  distTransform : α → α
  zerosBool : α → α
  setPeaks : α → α
  labelMarkers : α → α
  runWatershed : α → α → α → α
  rmObjectsA : α → α
  rmHolesB : α → α
  rmObjectsC : α → α
  toMaskU8 : α → α
  drawContoursOn : α → α → α

/-- Buffer trace of `CellCountPipeline.process`: `rgb` (lines 51-56, a
fresh buffer in all three branches), `image` (line 57, fresh for uint8
input, an alias of `rgb` otherwise), `lab`, `L`, `binary`, `distance`,
`mask` (fresh zeros, then written in place by `mask[coords] = True`,
line 72), `markers`, the watershed labels, the three cleaning passes,
`result = frame.copy()` (line 95), and the in-place
`cv2.drawContours(result, ...)` (line 100).  Returns the final store and
the returned buffer's index. -/
def cellCountTrace {α : Type} (P : CellCountPrims α)
    (isUint8 show_contours : Bool) (σ0 : Store α) (frameId : ℕ) :
    Store α × ℕ :=
  let rgb := σ0.size
  let σ1 := σ0.alloc1 (P.toRgb (σ0.read frameId))
  let image := if isUint8 then σ1.size else rgb
  let σ2 := if isUint8 then σ1.alloc1 (P.toFloat (σ1.read rgb)) else σ1
  let lab := σ2.size
  let σ3 := σ2.alloc1 (P.toLab (σ2.read image))
  let lchan := σ3.size
  let σ4 := σ3.alloc1 (P.lumChannel (σ3.read lab))
  let binary := σ4.size
  let σ5 := σ4.alloc1 (P.binarize (σ4.read lchan))
  let dist := σ5.size
  let σ6 := σ5.alloc1 (P.distTransform (σ5.read binary))
  let mask := σ6.size
  let σ7 := σ6.alloc1 (P.zerosBool (σ6.read dist))
  let σ8 := σ7.write mask (P.setPeaks (σ7.read mask))
  let markers := σ8.size
  let σ9 := σ8.alloc1 (P.labelMarkers (σ8.read mask))
  let lbl := σ9.size
  let σ10 := σ9.alloc1
    (P.runWatershed (σ9.read dist) (σ9.read markers) (σ9.read binary))
  let b1 := σ10.size
  let σ11 := σ10.alloc1 (P.rmObjectsA (σ10.read lbl))
  let b2 := σ11.size
  let σ12 := σ11.alloc1 (P.rmHolesB (σ11.read b1))
  let b3 := σ12.size
  let σ13 := σ12.alloc1 (P.rmObjectsC (σ12.read b2))
  let result := σ13.size
  let σ14 := σ13.alloc1 (σ13.read frameId)
  let σ15 :=
    if show_contours then
      let mu8 := σ14.size
      let σa := σ14.alloc1 (P.toMaskU8 (σ14.read b3))
      σa.write result (P.drawContoursOn (σa.read result) (σa.read mu8))
    else σ14
  (σ15, result)

/-- Content functions of the external array operations called by
`FluorescencePipeline.process` (`fluorescence_pipeline.py` lines 37-109). -/
structure FluorescencePrims (α : Type) where
  toGray : α → α
  thresholdB : α → α
  colormapOf : α → α
  mergeMask : α → α
  maskToBool : α → α
  blendInto : α → α → α
  drawIntensity : α → α

/-- Buffer trace of `FluorescencePipeline.process`: `gray` (lines 52-55,
fresh in both branches), the threshold `mask` (line 58), `colored`
(line 61), `result = frame.copy()` (line 64), `mask_3channel` and its
bool cast (lines 67-68, computed but never consulted by the blend),
the in-place `cv2.addWeighted(..., dst=result)` (lines 71-78), and the
conditional in-place `cv2.putText(result, ...)` (lines 92-101, reached
when the mask is nonempty and `show_intensity` is set — both abstracted
as the boolean flags). -/
def fluorescenceTrace {α : Type} (P : FluorescencePrims α)
    (anyMask show_intensity : Bool) (σ0 : Store α) (frameId : ℕ) :
    Store α × ℕ :=
  let gray := σ0.size
  let σ1 := σ0.alloc1 (P.toGray (σ0.read frameId))
  let maskB := σ1.size
  let σ2 := σ1.alloc1 (P.thresholdB (σ1.read gray))
  let colored := σ2.size
  let σ3 := σ2.alloc1 (P.colormapOf (σ2.read gray))
  let result := σ3.size
  let σ4 := σ3.alloc1 (σ3.read frameId)
  let m3 := σ4.size
  let σ5 := σ4.alloc1 (P.mergeMask (σ4.read maskB))
  let σ6 := σ5.alloc1 (P.maskToBool (σ5.read m3))
  let σ7 := σ6.write result (P.blendInto (σ6.read colored) (σ6.read result))
  let σ8 :=
    if anyMask && show_intensity then
      σ7.write result (P.drawIntensity (σ7.read result))
    else σ7
  (σ8, result)

/-- Content functions of the external array operations called by
`EstrogenReceptorPipeline.process` (`estrogen_receptor_pipeline.py`
lines 37-169, including its `clean_mask`, `remove_elongated_objects` and
`draw_contours` helpers). -/
structure ERPrims (α : Type) where
  toFloatImg : α → α
  toLab : α → α
  lumChannel : α → α
  binarize : α → α
  distTransform : α → α
  zerosBool : α → α
  setPeaks : α → α
  labelMarkers : α → α
  runWatershed : α → α → α → α
  rmObjectsLbl : α → α
  toRgbU8 : α → α
  inRangeBlue : α → α
  rmHolesClean : α → α
  rmObjClean : α → α
  labelForEcc : α → α
  zerosLikeMask : α → α
  keepRound : α → α → α
  gtZeroBlue : α → α
  gtZeroBrown : α → α
  toGrayImage : α → α
  blueU8 : α → α
  brownU8 : α → α
  drawBlueOn : α → α → α
  drawBrownOn : α → α → α
  drawScoreText : α → α

/-- Buffer trace of `EstrogenReceptorPipeline.process`: `image` (line 39,
fresh in both branches), the LAB/watershed chain for the brown labels
(lines 42-60) with the in-place `mask[coords] = True` (line 56), the RGB
cast and fixed-range blue mask (lines 61-64), the `clean_mask` helper
(lines 149-150), `remove_elongated_objects` (lines 154-161) whose loop
writes into its fresh `clean_mask` zeros, the bool casts (lines 67-68),
the grayscale image (line 98, an alias of `image` for 2-D input),
`result = frame.copy()` (line 120), the two conditional in-place
`draw_contours(result, ...)` calls (lines 122-123) and the unconditional
in-place `cv2.putText(result, ...)` (line 125). -/
def erTrace {α : Type} (P : ERPrims α) (is3d show_contours : Bool)
    (σ0 : Store α) (frameId : ℕ) : Store α × ℕ :=
  let image := σ0.size
  let σ1 := σ0.alloc1 (P.toFloatImg (σ0.read frameId))
  let lab := σ1.size
  let σ2 := σ1.alloc1 (P.toLab (σ1.read image))
  let lchan := σ2.size
  let σ3 := σ2.alloc1 (P.lumChannel (σ2.read lab))
  let binary := σ3.size
  let σ4 := σ3.alloc1 (P.binarize (σ3.read lchan))
  let dist := σ4.size
  let σ5 := σ4.alloc1 (P.distTransform (σ4.read binary))
  let mask := σ5.size
  let σ6 := σ5.alloc1 (P.zerosBool (σ5.read dist))
  let σ7 := σ6.write mask (P.setPeaks (σ6.read mask))
  let markers := σ7.size
  let σ8 := σ7.alloc1 (P.labelMarkers (σ7.read mask))
  let lblBrown := σ8.size
  let σ9 := σ8.alloc1
    (P.runWatershed (σ8.read dist) (σ8.read markers) (σ8.read binary))
  let brown1 := σ9.size
  let σ10 := σ9.alloc1 (P.rmObjectsLbl (σ9.read lblBrown))
  let rgbU8 := σ10.size
  let σ11 := σ10.alloc1 (P.toRgbU8 (σ10.read image))
  let lblBlue := σ11.size
  let σ12 := σ11.alloc1 (P.inRangeBlue (σ11.read rgbU8))
  let clean1 := σ12.size
  let σ13 := σ12.alloc1 (P.rmHolesClean (σ12.read lblBlue))
  let clean2 := σ13.size
  let σ14 := σ13.alloc1 (P.rmObjClean (σ13.read clean1))
  let labeled := σ14.size
  let σ15 := σ14.alloc1 (P.labelForEcc (σ14.read clean2))
  let cleanZ := σ15.size
  let σ16 := σ15.alloc1 (P.zerosLikeMask (σ15.read clean2))
  let σ17 := σ16.write cleanZ (P.keepRound (σ16.read labeled) (σ16.read cleanZ))
  let blueMask := σ17.size
  let σ18 := σ17.alloc1 (P.gtZeroBlue (σ17.read cleanZ))
  let brownMask := σ18.size
  let σ19 := σ18.alloc1 (P.gtZeroBrown (σ18.read brown1))
  let σ20 := if is3d then σ19.alloc1 (P.toGrayImage (σ19.read image)) else σ19
  let result := σ20.size
  let σ21 := σ20.alloc1 (σ20.read frameId)
  let σ22 :=
    if show_contours then
      let bu := σ21.size
      let σa := σ21.alloc1 (P.blueU8 (σ21.read blueMask))
      let σb := σa.write result (P.drawBlueOn (σa.read result) (σa.read bu))
      let bru := σb.size
      let σc := σb.alloc1 (P.brownU8 (σb.read brownMask))
      σc.write result (P.drawBrownOn (σc.read result) (σc.read bru))
    else σ21
  let σ23 := σ22.write result (P.drawScoreText (σ22.read result))
  (σ23, result)

/-- Content functions of the external array operations called by
`NottinghamTubulePipeline.process` and its `_predict_mask` / `_min_max_norm`
helpers (`nottingham_tubule_pipeline.py` lines 45-111). -/
structure NTPrims (α : Type) where
  resizePatch : α → α
  toFloatDiv : α → α
  minMaxNorm : α → α
  inferProbs : α → α
  threshProbs : α → α
  rmObj : α → α
  rmHoles : α → α
  astypeU8 : α → α
  resizeBack : α → α
  zerosLike : α → α
  setOutsideBlack : α → α → α
  blendWeighted : α → α → α
  copyInside : α → α → α → α

/-- Buffer trace of `NottinghamTubulePipeline.process`: the resized patch
and float cast (lines 59-60; the transpose on line 61 is a view of the
float buffer, adding no buffer), `_min_max_norm` (line 62, fresh), the
inference probabilities and thresholded mask (lines 63-68), the two
cleaning passes and uint8 cast (lines 82-86), the resize back (lines
98-100), `overlay = frame.copy()` (line 101), `mask_rgb =
np.zeros_like(overlay)` written in place by the fancy-index assignment
(lines 102-103), the fresh `blended = cv2.addWeighted(...)` (line 105,
no `dst`), and the in-place `blended[clean_resized == 1] = ...`
(line 106). -/
def nottinghamTrace {α : Type} (P : NTPrims α) (σ0 : Store α)
    (frameId : ℕ) : Store α × ℕ :=
  let patch := σ0.size
  let σ1 := σ0.alloc1 (P.resizePatch (σ0.read frameId))
  let xf := σ1.size
  let σ2 := σ1.alloc1 (P.toFloatDiv (σ1.read patch))
  let xn := σ2.size
  let σ3 := σ2.alloc1 (P.minMaxNorm (σ2.read xf))
  let probs := σ3.size
  let σ4 := σ3.alloc1 (P.inferProbs (σ3.read xn))
  let rawMask := σ4.size
  let σ5 := σ4.alloc1 (P.threshProbs (σ4.read probs))
  let c1 := σ5.size
  let σ6 := σ5.alloc1 (P.rmObj (σ5.read rawMask))
  let c2 := σ6.size
  let σ7 := σ6.alloc1 (P.rmHoles (σ6.read c1))
  let c3 := σ7.size
  let σ8 := σ7.alloc1 (P.astypeU8 (σ7.read c2))
  let cleanResized := σ8.size
  let σ9 := σ8.alloc1 (P.resizeBack (σ8.read c3))
  let overlay := σ9.size
  let σ10 := σ9.alloc1 (σ9.read frameId)
  let maskRgb := σ10.size
  let σ11 := σ10.alloc1 (P.zerosLike (σ10.read overlay))
  let σ12 := σ11.write maskRgb
    (P.setOutsideBlack (σ11.read cleanResized) (σ11.read maskRgb))
  let blended := σ12.size
  let σ13 := σ12.alloc1 (P.blendWeighted (σ12.read overlay) (σ12.read maskRgb))
  let σ14 := σ13.write blended
    (P.copyInside (σ13.read overlay) (σ13.read cleanResized) (σ13.read blended))
  (σ14, blended)

/-- Content functions of the external array operations called by
`NuclearPleomorphismPipeline.process` and its `_predict_mask` /
`_extract_features` helpers (`nuclear_pleomorphism_pipeline.py` lines
123-253). -/
structure NPPrims (α : Type) where
  resizePatch : α → α
  toFloatDiv : α → α
  inferProbs : α → α
  threshProbs : α → α
  resizeMask : α → α
  resizeProbs : α → α
  rmObj : α → α
  astypeU8 : α → α
  toGrayOf : α → α
  labelMask : α → α
  drawContoursOn : α → α → α
  drawCentroids : α → α

/-- Buffer trace of `NuclearPleomorphismPipeline.process`: the resized
patch and float cast (lines 126-127; the transpose on line 128 is a
view), the inference probabilities, thresholded mask and the two resizes
(lines 129-136), the cleaning pass and uint8 cast (lines 231-232),
`_extract_features`' grayscale conversion (lines 140-143, fresh for 3-D
input, an alias of the input frame itself for 2-D input — read only) and
labelling (line 144), `result = frame.copy()` (line 237), the in-place
`cv2.drawContours(result, ...)` (lines 238-239) and the in-place
`cv2.circle(result, ...)` loop (lines 240-242, collapsed into one
write). -/
def nuclearPleoTrace {α : Type} (P : NPPrims α) (is3d : Bool)
    (σ0 : Store α) (frameId : ℕ) : Store α × ℕ :=
  let patch := σ0.size
  let σ1 := σ0.alloc1 (P.resizePatch (σ0.read frameId))
  let xf := σ1.size
  let σ2 := σ1.alloc1 (P.toFloatDiv (σ1.read patch))
  let probs := σ2.size
  let σ3 := σ2.alloc1 (P.inferProbs (σ2.read xf))
  let mask0 := σ3.size
  let σ4 := σ3.alloc1 (P.threshProbs (σ3.read probs))
  let mask1 := σ4.size
  let σ5 := σ4.alloc1 (P.resizeMask (σ4.read mask0))
  let σ6 := σ5.alloc1 (P.resizeProbs (σ5.read probs))
  let maskClean := σ6.size
  let σ7 := σ6.alloc1 (P.rmObj (σ6.read mask1))
  let maskU8 := σ7.size
  let σ8 := σ7.alloc1 (P.astypeU8 (σ7.read maskClean))
  let σ9 := if is3d then σ8.alloc1 (P.toGrayOf (σ8.read frameId)) else σ8
  let σ10 := σ9.alloc1 (P.labelMask (σ9.read maskU8))
  let result := σ10.size
  let σ11 := σ10.alloc1 (σ10.read frameId)
  let σ12 := σ11.write result
    (P.drawContoursOn (σ11.read result) (σ11.read maskU8))
  let σ13 := σ12.write result (P.drawCentroids (σ12.read result))
  (σ13, result)

/-- All-constant content functions, for evaluating the traces at a
concrete store. -/
def constCellCountPrims : CellCountPrims ℕ :=
  ⟨fun _ => 0, fun _ => 0, fun _ => 0, fun _ => 0, fun _ => 0, fun _ => 0,
   fun _ => 0, fun _ => 0, fun _ => 0, fun _ _ _ => 0, fun _ => 0, fun _ => 0,
   fun _ => 0, fun _ => 0, fun _ _ => 0⟩

/-- All-constant content functions for the fluorescence trace. -/
def constFluorescencePrims : FluorescencePrims ℕ :=
  ⟨fun _ => 0, fun _ => 0, fun _ => 0, fun _ => 0, fun _ => 0,
   fun _ _ => 0, fun _ => 0⟩

/-- All-constant content functions for the estrogen receptor trace. -/
def constERPrims : ERPrims ℕ :=
  ⟨fun _ => 0, fun _ => 0, fun _ => 0, fun _ => 0, fun _ => 0, fun _ => 0,
   fun _ => 0, fun _ => 0, fun _ _ _ => 0, fun _ => 0, fun _ => 0, fun _ => 0,
   fun _ => 0, fun _ => 0, fun _ => 0, fun _ => 0, fun _ _ => 0, fun _ => 0,
   fun _ => 0, fun _ => 0, fun _ => 0, fun _ => 0, fun _ _ => 0, fun _ _ => 0,
   fun _ => 0⟩

/-- All-constant content functions for the Nottingham tubule trace. -/
def constNTPrims : NTPrims ℕ :=
  ⟨fun _ => 0, fun _ => 0, fun _ => 0, fun _ => 0, fun _ => 0, fun _ => 0,
   fun _ => 0, fun _ => 0, fun _ => 0, fun _ => 0, fun _ _ => 0,
   fun _ _ => 0, fun _ _ _ => 0⟩

/-- All-constant content functions for the nuclear pleomorphism trace. -/
def constNPPrims : NPPrims ℕ :=
  ⟨fun _ => 0, fun _ => 0, fun _ => 0, fun _ => 0, fun _ => 0, fun _ => 0,
   fun _ => 0, fun _ => 0, fun _ => 0, fun _ => 0, fun _ _ => 0, fun _ => 0⟩

/-- A one-buffer store whose single buffer holds 7. -/
def oneBufStore : Store ℕ := { size := 1, mem := fun _ => 7 }

end PathoAssist

namespace PathoAssist

/-! Helper lemmas -/

theorem lookupParam_append (a b : Params) (k : String) :
    lookupParam (a ++ b) k =
      match lookupParam a k with
      | some v => some v
      | none => lookupParam b k := by
  induction a with
  | nil => rfl
  | cons hd tl ih =>
      by_cases hk : hd.1 = k
      · simp [lookupParam, hk]
      · simp [lookupParam, hk, ih]

theorem lookupParam_override (d o : Params) (k : String) :
    lookupParam
        (d.map (fun kv =>
          match lookupParam o kv.1 with
          | some v => (kv.1, v)
          | none => kv)) k =
      match lookupParam d k with
      | some v =>
          some (match lookupParam o k with
                | some w => w
                | none => v)
      | none => none := by
  induction d with
  | nil => rfl
  | cons hd tl ih =>
      cases h : lookupParam o hd.1 with
      | none =>
          by_cases hk : hd.1 = k
          · subst hk; simp [lookupParam, h]
          · simp [lookupParam, h, hk, ih]
      | some v =>
          by_cases hk : hd.1 = k
          · subst hk; simp [lookupParam, h]
          · simp [lookupParam, h, hk, ih]

theorem lookupParam_filterAbsent (d o : Params) (k : String)
    (hd : lookupParam d k = none) :
    lookupParam (o.filter (fun kv => (lookupParam d kv.1).isNone)) k =
      lookupParam o k := by
  induction o with
  | nil => rfl
  | cons hd0 tl ih =>
      by_cases hk : hd0.1 = k
      · have hkept : (lookupParam d hd0.1).isNone = true := by
          rw [hk, hd]; rfl
        simp only [List.filter_cons, hkept, if_pos, lookupParam, if_pos hk]
      · cases hkeep : (lookupParam d hd0.1).isNone with
        | true =>
            simp only [List.filter_cons, hkeep, lookupParam, if_neg hk]
            exact ih
        | false =>
            simp only [List.filter_cons, hkeep, lookupParam, if_neg hk]
            exact ih

theorem lookupParam_mergeParams (d o : Params) (k : String) :
    lookupParam (mergeParams d o) k =
      match lookupParam o k with
      | some v => some v
      | none => lookupParam d k := by
  unfold mergeParams
  rw [lookupParam_append, lookupParam_override]
  cases hdk : lookupParam d k with
  | some w =>
      cases hok : lookupParam o k with
      | some v => simp only [hok]
      | none => simp only [hok]
  | none =>
      rw [lookupParam_filterAbsent d o k hdk]
      cases hok : lookupParam o k with
      | some v => simp only [hok]
      | none => simp only [hok, hdk]

theorem mergeParams_nil (d : Params) : mergeParams d [] = d := by
  unfold mergeParams
  simp only [List.filter_nil, List.append_nil]
  induction d with
  | nil => rfl
  | cons hd tl ih =>
      simp only [List.map_cons] at *
      rw [ih]; rfl

theorem get_dictInsert_self {F : Type} (r : Registry F) (k : String)
    (v : OverlayPipeline F) :
    get_pipeline_by_name (dictInsert r k v) k = some v := by
  induction r with
  | nil => simp [dictInsert, get_pipeline_by_name]
  | cons hd tl ih =>
      cases hd with
      | mk k0 v0 =>
          by_cases hk : k0 = k
          · simp only [dictInsert, if_pos hk, get_pipeline_by_name,
              eq_self_iff_true, if_true]
          · simp only [dictInsert, if_neg hk, get_pipeline_by_name]
            exact ih

theorem dictInsert_dictInsert_same {F : Type} (r : Registry F) (k : String)
    (v w : OverlayPipeline F) :
    dictInsert (dictInsert r k v) k w = dictInsert r k w := by
  induction r with
  | nil => simp [dictInsert]
  | cons hd tl ih =>
      cases hd with
      | mk k0 v0 =>
          by_cases hk : k0 = k
          · simp only [dictInsert, if_pos hk, eq_self_iff_true, if_true]
          · simp only [dictInsert, if_neg hk, ih]

theorem dictInsert_length_val {F : Type} (r : Registry F) (k : String)
    (v w : OverlayPipeline F) :
    (dictInsert r k v).length = (dictInsert r k w).length := by
  induction r with
  | nil => rfl
  | cons hd tl ih =>
      cases hd with
      | mk k0 v0 =>
          by_cases hk : k0 = k
          · simp only [dictInsert, if_pos hk, List.length_cons]
          · simp only [dictInsert, if_neg hk, List.length_cons, ih]

theorem mem_values_dictInsert {F : Type} (r : Registry F) (k : String)
    (v x : OverlayPipeline F)
    (hx : x ∈ list_available_pipelines (dictInsert r k v)) :
    x ∈ list_available_pipelines r ∨ x = v := by
  induction r with
  | nil =>
      simp only [dictInsert, list_available_pipelines, List.map_cons,
        List.map_nil, List.mem_singleton] at hx
      exact Or.inr hx
  | cons hd tl ih =>
      cases hd with
      | mk k0 v0 =>
          by_cases hk : k0 = k
          · simp only [dictInsert, if_pos hk, list_available_pipelines,
              List.map_cons, List.mem_cons] at hx
            rcases hx with h | h
            · exact Or.inr h
            · exact Or.inl (by
                simp only [list_available_pipelines, List.map_cons, List.mem_cons]
                exact Or.inr h)
          · simp only [dictInsert, if_neg hk, list_available_pipelines,
              List.map_cons, List.mem_cons] at hx
            rcases hx with h | h
            · exact Or.inl (by
                simp only [list_available_pipelines, List.map_cons, List.mem_cons]
                exact Or.inl h)
            · rcases ih h with h2 | h2
              · exact Or.inl (by
                  simp only [list_available_pipelines, List.map_cons, List.mem_cons]
                  exact Or.inr h2)
              · exact Or.inr h2

/-! Claim theorems -/

/-- C1: for every registry state, frame and parameter override mapping,
if the configured pipeline name is absent from the registry then
`VideoCapture.process_frame` (`video_capture.py` lines 175-178) returns
the original input frame itself together with an empty metrics mapping;
the embedding is a total function, so no exception escapes. -/
theorem unknown_pipeline_passthrough {F : Type} (r : Registry F) (frame : F)
    (name : String) (params : Params)
    (h : get_pipeline_by_name r name = none) :
    process_frame r frame ⟨name, params⟩ = (frame, ([] : Metrics)) := by
  simp only [process_frame, h]

/-- Witness for C1: the startup registry does not know the name
"tubule_segmentation", and `process_frame` passes the frame through. -/
theorem unknown_pipeline_passthrough_witness :
    get_pipeline_by_name (startupRegistry Unit (idProcess Unit) (idProcess Unit))
        "tubule_segmentation" = none ∧
    process_frame (startupRegistry Unit (idProcess Unit) (idProcess Unit)) ()
        ⟨"tubule_segmentation", []⟩ = ((), ([] : Metrics)) :=
  ⟨rfl, unknown_pipeline_passthrough _ _ _ _ rfl⟩

/-- C2 (amended): after the startup registration of
`overlay_pipelines/__init__.py` (lines 43-45) the registry resolves
exactly the cell-count and fluorescence pipelines; the estrogen receptor,
Nottingham tubule and nuclear pleomorphism pipelines are implemented in
the repository but never registered, so lookup returns an absent signal
for each of their names. -/
theorem startup_registry_contents {F : Type}
    (ccProc flProc erProc ntProc npProc : F → Params → Option (F × Metrics)) :
    get_pipeline_by_name (startupRegistry F ccProc flProc) "cell_count" =
        some (CellCountPipeline F ccProc) ∧
    get_pipeline_by_name (startupRegistry F ccProc flProc) "fluorescence" =
        some (FluorescencePipeline F flProc) ∧
    get_pipeline_by_name (startupRegistry F ccProc flProc)
        (EstrogenReceptorPipeline F erProc).name = none ∧
    get_pipeline_by_name (startupRegistry F ccProc flProc)
        (NottinghamTubulePipeline F ntProc).name = none ∧
    get_pipeline_by_name (startupRegistry F ccProc flProc)
        (NuclearPleomorphismPipeline F npProc).name = none ∧
    (list_available_pipelines (startupRegistry F ccProc flProc)).map
        (fun pl => pl.name) = ["cell_count", "fluorescence"] :=
  ⟨rfl, rfl, rfl, rfl, rfl, rfl⟩

/-- Counterexample for C2: the registry lookup after startup registration
returns no instance for the estrogen receptor, Nottingham tubule or
nuclear pleomorphism pipeline names, refuting the claim that every known
pipeline implemented in the repository resolves. -/
theorem registry_missing_pipelines_cex :
    get_pipeline_by_name (startupRegistry Unit (idProcess Unit) (idProcess Unit))
        (EstrogenReceptorPipeline Unit (idProcess Unit)).name = none ∧
    get_pipeline_by_name (startupRegistry Unit (idProcess Unit) (idProcess Unit))
        (NottinghamTubulePipeline Unit (idProcess Unit)).name = none ∧
    get_pipeline_by_name (startupRegistry Unit (idProcess Unit) (idProcess Unit))
        (NuclearPleomorphismPipeline Unit (idProcess Unit)).name = none :=
  ⟨rfl, rfl, rfl⟩

/-- C10: registering a pipeline under an already-registered name silently
replaces the earlier registration (no error): lookup afterwards returns
the later pipeline, the registry does not grow, and the earlier pipeline
is gone from enumeration (provided it is not also registered under some
other key and differs from its replacement). -/
theorem register_pipeline_last_wins {F : Type} (r : Registry F)
    (p q : OverlayPipeline F) (hname : q.name = p.name)
    (hq : q ≠ p) (hr : p ∉ list_available_pipelines r) :
    get_pipeline_by_name (register_pipeline (register_pipeline r p) q) p.name =
        some q ∧
    (register_pipeline (register_pipeline r p) q).length =
        (register_pipeline r p).length ∧
    p ∉ list_available_pipelines (register_pipeline (register_pipeline r p) q) := by
  unfold register_pipeline
  rw [hname, dictInsert_dictInsert_same]
  refine ⟨get_dictInsert_self r p.name q, dictInsert_length_val r p.name q p, ?_⟩
  intro hmem
  rcases mem_values_dictInsert r p.name q p hmem with h | h
  · exact hr h
  · exact hq h.symm

/-- Witness for C10: re-registering the name "cell_count" in the empty
registry leaves one entry, resolving to the later pipeline, with the
earlier one unreachable. -/
theorem register_pipeline_last_wins_witness :
    get_pipeline_by_name
        (register_pipeline
          (register_pipeline [] (CellCountPipeline Unit (idProcess Unit)))
          (cellCountVariant Unit (idProcess Unit)))
        (CellCountPipeline Unit (idProcess Unit)).name =
      some (cellCountVariant Unit (idProcess Unit)) ∧
    (register_pipeline
        (register_pipeline [] (CellCountPipeline Unit (idProcess Unit)))
        (cellCountVariant Unit (idProcess Unit))).length =
      (register_pipeline [] (CellCountPipeline Unit (idProcess Unit))).length ∧
    CellCountPipeline Unit (idProcess Unit) ∉
      list_available_pipelines
        (register_pipeline
          (register_pipeline [] (CellCountPipeline Unit (idProcess Unit)))
          (cellCountVariant Unit (idProcess Unit))) :=
  register_pipeline_last_wins [] (CellCountPipeline Unit (idProcess Unit))
    (cellCountVariant Unit (idProcess Unit)) rfl
    (fun h =>
      absurd (congrArg OverlayPipeline.display_name h) (by decide))
    (fun h => by simp [list_available_pipelines] at h)

/-- C4: the parameter merge of every pipeline (`p = {**defaults, **params}`)
is total and pure: a merged lookup returns the caller's value when the key
was supplied and the declared default otherwise (so unknown keys are
harmless and missing keys fall back); merging an empty override map is
the identity, as is merging a pipeline's own full default map (shown for
the cell-count and fluorescence defaults), so the embedded fluorescence
process behaves identically on an empty override and on its full default
map; and appending an unknown key never changes another key's merged
value.  The merge builds a new list and only reads `default_params`. -/
theorem parameter_merge_total :
    (∀ d o : Params, ∀ k,
        lookupParam (mergeParams d o) k =
          match lookupParam o k with
          | some v => some v
          | none => lookupParam d k) ∧
    (∀ d : Params, mergeParams d [] = d) ∧
    mergeParams cellCountDefaultParams cellCountDefaultParams =
        cellCountDefaultParams ∧
    mergeParams fluorescenceDefaultParams fluorescenceDefaultParams =
        fluorescenceDefaultParams ∧
    (∀ (cmaps : ℤ → ℕ → Pix3) (TP : TextPrims) (frame : Frame3),
        fluorescenceProcess cmaps TP frame [] =
          fluorescenceProcess cmaps TP frame fluorescenceDefaultParams) ∧
    (∀ (d o : Params) (k0 : String) (v0 : Value) (k : String), k ≠ k0 →
        lookupParam (mergeParams d (o ++ [(k0, v0)])) k =
          lookupParam (mergeParams d o) k) := by
  have hccd : mergeParams cellCountDefaultParams cellCountDefaultParams =
      cellCountDefaultParams := by with_unfolding_all rfl
  have hfld : mergeParams fluorescenceDefaultParams fluorescenceDefaultParams =
      fluorescenceDefaultParams := by with_unfolding_all rfl
  refine ⟨lookupParam_mergeParams, mergeParams_nil, hccd, hfld, ?_, ?_⟩
  · intro cmaps TP frame
    simp only [fluorescenceProcess]
    rw [mergeParams_nil, hfld]
  · intro d o k0 v0 k hk
    have hx : lookupParam (o ++ [(k0, v0)]) k = lookupParam o k := by
      rw [lookupParam_append]
      cases h : lookupParam o k with
      | some v => simp only
      | none =>
          simp only [lookupParam]
          rw [if_neg (fun hh : k0 = k => hk hh.symm)]
    rw [lookupParam_mergeParams, lookupParam_mergeParams, hx]

/-- Witness for C4: merging an override that carries only the unknown key
"zzz" leaves the merged value of "alpha" identical to the default-only
merge. -/
theorem parameter_merge_total_witness :
    lookupParam (mergeParams fluorescenceDefaultParams
        ([] ++ [("zzz", Value.int 7)])) "alpha" =
      lookupParam (mergeParams fluorescenceDefaultParams []) "alpha" :=
  parameter_merge_total.2.2.2.2.2 fluorescenceDefaultParams [] "zzz"
    (Value.int 7) "alpha" (by decide)

/-- C6 (code evaluated at the failing input): on a 1-by-1 all-black frame
with the default parameters, the single pixel's gray value is 0, at or
below the threshold 50, so the claim requires it unchanged; yet the
fluorescence process returns the blended pixel (64, 0, 0): the blend
`cv2.addWeighted` (`fluorescence_pipeline.py` lines 71-78) covers the
whole frame and the computed `mask_3channel` (lines 67-68) is never
applied. -/
theorem fluorescence_mask_unused_blend :
    bgr2grayPix (0, 0, 0) ≤ 50 ∧
    (fluorescenceProcess jetAtZero noText blackFrame1 []).1 = [[(64, 0, 0)]] ∧
    (fluorescenceProcess jetAtZero noText blackFrame1 []).1 ≠ blackFrame1 := by
  have h : (fluorescenceProcess jetAtZero noText blackFrame1 []).1 =
      [[(64, 0, 0)]] := by with_unfolding_all rfl
  refine ⟨by decide, h, ?_⟩
  rw [h]
  decide

theorem processLearnedStep_loaded (cuda : Bool) (art : ArtifactState)
    (s : LearnedState) (hl : s.model_loaded = true)
    (hm : s.model.isNone = false) :
    processLearnedStep cuda art s = (s, false, none) := by
  simp [processLearnedStep, hl, hm]

theorem processLearnedCalls_loaded (cuda : Bool) (art : ArtifactState)
    (s : LearnedState) (hl : s.model_loaded = true)
    (hm : s.model.isNone = false) :
    ∀ n, processLearnedCalls cuda art n s = (s, 0) := by
  intro n
  induction n with
  | zero => rfl
  | succ n ih =>
      simp [processLearnedCalls, processLearnedStep_loaded cuda art s hl hm, ih]

/-- C8: starting from the freshly constructed instance (load-state
unloaded), the first `process` call on a learned pipeline with a loadable
artifact invokes the load routine and transitions the state to loaded;
across the first call plus any `n` subsequent calls the load routine runs
exactly once, and every subsequent call reuses the loaded model state
unchanged. -/
theorem learned_pipeline_loads_once (cuda : Bool) (n : ℕ) :
    initLearnedState.model_loaded = false ∧
    (processLearnedStep cuda ArtifactState.present initLearnedState).2.1 = true ∧
    (processLearnedStep cuda ArtifactState.present initLearnedState).1.model_loaded
      = true ∧
    (processLearnedCalls cuda ArtifactState.present (n + 1) initLearnedState).2
      = 1 ∧
    (processLearnedCalls cuda ArtifactState.present (n + 1) initLearnedState).1
      = (processLearnedStep cuda ArtifactState.present initLearnedState).1 := by
  have hstep : processLearnedStep cuda ArtifactState.present initLearnedState =
      ({ model := some TorchModel.unetLoaded,
         device := some (if cuda then "cuda" else "cpu"),
         model_loaded := true }, true, none) := by
    cases cuda <;> rfl
  have hrest := processLearnedCalls_loaded cuda ArtifactState.present
    ({ model := some TorchModel.unetLoaded,
       device := some (if cuda then "cuda" else "cpu"),
       model_loaded := true }) rfl rfl n
  refine ⟨rfl, by rw [hstep], by rw [hstep], ?_, ?_⟩
  · show (let r := processLearnedStep cuda ArtifactState.present initLearnedState
      let rest := processLearnedCalls cuda ArtifactState.present n r.1
      (rest.1, (if r.2.1 then 1 else 0) + rest.2)).2 = 1
    rw [hstep]
    simp [hrest]
  · show (let r := processLearnedStep cuda ArtifactState.present initLearnedState
      let rest := processLearnedCalls cuda ArtifactState.present n r.1
      (rest.1, (if r.2.1 then 1 else 0) + rest.2)).1 =
      (processLearnedStep cuda ArtifactState.present initLearnedState).1
    rw [hstep]
    simp only [hrest]

/-- C9 (amended): when the model artifact is missing or shape-mismatched,
every `process` call invokes the load routine — the failure leaves
`_model_loaded` false, so far from being final for the pipeline, the load
is retried on every subsequent call; each call's load failure propagates
to that call's caller as an exception. -/
theorem load_failure_propagates_and_retries (cuda : Bool)
    (art : ArtifactState) (hart : art ≠ ArtifactState.present) (n : ℕ) :
    (processLearnedStep cuda art initLearnedState).2.2.isSome = true ∧
    (processLearnedCalls cuda art n initLearnedState).2 = n ∧
    (processLearnedCalls cuda art n initLearnedState).1.model_loaded = false := by
  have hstep : ∀ s : LearnedState, s.model_loaded = false →
      processLearnedStep cuda art s = (failedState cuda s, true, loadFailure art) := by
    intro s hs
    cases art with
    | present => exact absurd rfl hart
    | missing => simp [processLearnedStep, hs, load_model, loadFailure, failedState]
    | shapeMismatch => simp [processLearnedStep, hs, load_model, loadFailure, failedState]
  constructor
  · rw [hstep initLearnedState rfl]
    cases art with
    | present => exact absurd rfl hart
    | missing => rfl
    | shapeMismatch => rfl
  · have main : ∀ (m : ℕ) (s : LearnedState), s.model_loaded = false →
        (processLearnedCalls cuda art m s).2 = m ∧
        (processLearnedCalls cuda art m s).1.model_loaded = false := by
      intro m
      induction m with
      | zero => intro s hs; exact ⟨rfl, hs⟩
      | succ m ih =>
          intro s hs
          have h1 := hstep s hs
          have h2 := ih (failedState cuda s) hs
          constructor
          · simp only [processLearnedCalls, h1]
            simp [h2.1]
            omega
          · simp only [processLearnedCalls, h1]
            simpa using h2.2
    exact main n initLearnedState rfl

/-- Witness for C9's amended statement: with a missing artifact, two
calls invoke the load twice, the first call's failure propagates, and the
instance stays unloaded. -/
theorem load_failure_propagates_and_retries_witness :
    (processLearnedStep false ArtifactState.missing initLearnedState).2.2.isSome
      = true ∧
    (processLearnedCalls false ArtifactState.missing 2 initLearnedState).2 = 2 ∧
    (processLearnedCalls false ArtifactState.missing 2
        initLearnedState).1.model_loaded = false :=
  load_failure_propagates_and_retries false ArtifactState.missing
    (by decide) 2

/-- Counterexample for C9: after a first `process` call whose model load
failed (missing artifact), the next `process` call on the same instance
invokes `_load_model` again — the guard `not self._model_loaded or
self.model is None` is still true because `_model_loaded` was never set —
refuting the claim that subsequent calls do not re-invoke the load
routine. -/
theorem load_failure_retry_cex :
    (processLearnedStep false ArtifactState.missing
        (processLearnedStep false ArtifactState.missing initLearnedState).1).2.1
      = true ∧
    (processLearnedCalls false ArtifactState.missing 2 initLearnedState).2 = 2 :=
  ⟨rfl, rfl⟩

/-- C5 (code evaluated at the failing input): a watershed labelling that
is a single 3-by-3 region, with `min_size = 1`.  The cleaned mask keeps
the whole region: its one connected component has area 9, and
`cell_count` reports 1.  With any `max_size < 9` (for instance the
claim's filter at `max_size = 4`) the claimed size-range filter would
have rejected it, but `process` never reads `max_size`. -/
theorem cell_count_max_size_unenforced :
    (cellCountSegment [[1, 1, 1], [1, 1, 1], [1, 1, 1]] 1).2.1 = 1 ∧
    maskArea (cellCountSegment [[1, 1, 1], [1, 1, 1], [1, 1, 1]] 1).1 = 9 ∧
    (component neighbors4
        (cellCountSegment [[1, 1, 1], [1, 1, 1], [1, 1, 1]] 1).1 (0, 0)).length
      = 9 ∧
    ¬(9 : ℕ) ≤ 4 := by
  refine ⟨?_, ?_, ?_, by decide⟩ <;> with_unfolding_all decide

theorem statusBucket (x : ℚ) :
    (if x < 1 then 1
     else if x < 10 then 2
     else if x < 33 then 3
     else if x < 66 then 4
     else 5 : ℕ) =
      1 + ([(1 : ℚ), 10, 33, 66].countP (fun c => decide (c ≤ x))) := by
  rcases lt_or_le x 1 with h1 | h1
  · rw [if_pos h1]
    have c1 : decide ((1 : ℚ) ≤ x) = false := decide_eq_false (not_le.mpr h1)
    have c2 : decide ((10 : ℚ) ≤ x) = false :=
      decide_eq_false (not_le.mpr (h1.trans (by norm_num)))
    have c3 : decide ((33 : ℚ) ≤ x) = false :=
      decide_eq_false (not_le.mpr (h1.trans (by norm_num)))
    have c4 : decide ((66 : ℚ) ≤ x) = false :=
      decide_eq_false (not_le.mpr (h1.trans (by norm_num)))
    simp [List.countP_cons, List.countP_nil, c1, c2, c3, c4]
  · rw [if_neg (not_lt.mpr h1)]
    have c1 : decide ((1 : ℚ) ≤ x) = true := decide_eq_true h1
    rcases lt_or_le x 10 with h2 | h2
    · rw [if_pos h2]
      have c2 : decide ((10 : ℚ) ≤ x) = false := decide_eq_false (not_le.mpr h2)
      have c3 : decide ((33 : ℚ) ≤ x) = false :=
        decide_eq_false (not_le.mpr (h2.trans (by norm_num)))
      have c4 : decide ((66 : ℚ) ≤ x) = false :=
        decide_eq_false (not_le.mpr (h2.trans (by norm_num)))
      simp [List.countP_cons, List.countP_nil, c1, c2, c3, c4]
    · rw [if_neg (not_lt.mpr h2)]
      have c2 : decide ((10 : ℚ) ≤ x) = true := decide_eq_true h2
      rcases lt_or_le x 33 with h3 | h3
      · rw [if_pos h3]
        have c3 : decide ((33 : ℚ) ≤ x) = false := decide_eq_false (not_le.mpr h3)
        have c4 : decide ((66 : ℚ) ≤ x) = false :=
          decide_eq_false (not_le.mpr (h3.trans (by norm_num)))
        simp [List.countP_cons, List.countP_nil, c1, c2, c3, c4]
      · rw [if_neg (not_lt.mpr h3)]
        have c3 : decide ((33 : ℚ) ≤ x) = true := decide_eq_true h3
        rcases lt_or_le x 66 with h4 | h4
        · rw [if_pos h4]
          have c4 : decide ((66 : ℚ) ≤ x) = false := decide_eq_false (not_le.mpr h4)
          simp [List.countP_cons, List.countP_nil, c1, c2, c3, c4]
        · rw [if_neg (not_lt.mpr h4)]
          have c4 : decide ((66 : ℚ) ≤ x) = true := decide_eq_true h4
          simp [List.countP_cons, List.countP_nil, c1, c2, c3, c4]

theorem intensityBucket (x : ℚ) :
    (if x < 3 / 10 then 3 else if x < 6 / 10 then 2 else 1 : ℕ) =
      3 - ([(3 : ℚ) / 10, 6 / 10].countP (fun c => decide (c ≤ x))) := by
  rcases lt_or_le x (3 / 10) with h1 | h1
  · rw [if_pos h1]
    have c1 : decide ((3 : ℚ) / 10 ≤ x) = false := decide_eq_false (not_le.mpr h1)
    have c2 : decide ((6 : ℚ) / 10 ≤ x) = false :=
      decide_eq_false (not_le.mpr (h1.trans (by norm_num)))
    simp [List.countP_cons, List.countP_nil, c1, c2]
  · rw [if_neg (not_lt.mpr h1)]
    have c1 : decide ((3 : ℚ) / 10 ≤ x) = true := decide_eq_true h1
    rcases lt_or_le x (6 / 10) with h2 | h2
    · rw [if_pos h2]
      have c2 : decide ((6 : ℚ) / 10 ≤ x) = false := decide_eq_false (not_le.mpr h2)
      simp [List.countP_cons, List.countP_nil, c1, c2]
    · rw [if_neg (not_lt.mpr h2)]
      have c2 : decide ((6 : ℚ) / 10 ≤ x) = true := decide_eq_true h2
      simp [List.countP_cons, List.countP_nil, c1, c2]

theorem maskedValues_nil_of_area_zero (gray : List (List ℚ)) (m : BMask)
    (hm : maskArea m = 0) : maskedValues gray m = [] := by
  have hfalse : ∀ b ∈ m.flatten, b = false := by
    intro b hb
    rcases List.mem_flatten.mp hb with ⟨row, hrow, hbrow⟩
    have hmem : row.countP (fun b => b) ∈
        m.map (fun row => row.countP (fun b => b)) :=
      List.mem_map.mpr ⟨row, hrow, rfl⟩
    have hle := List.single_le_sum (fun (x : ℕ) _ => Nat.zero_le x) _ hmem
    rw [maskArea] at hm
    have hrow0 : row.countP (fun b => b) = 0 := by omega
    rcases b with _ | _
    · rfl
    · exact absurd (List.countP_eq_zero.mp hrow0 true hbrow) (by simp)
  apply List.filterMap_eq_nil_iff.mpr
  intro x hx
  have hx2 := (List.of_mem_zip hx).2
  rw [hfalse x.2 hx2]
  rfl

/-- C7: characterization of the estrogen-receptor scoring stage, for
every pair of masks and grayscale image: the staining-extent score is 1
plus the number of cut points 1/10/33/66 at or below the brown percent of
total stained area and lies in 1..5; zero stained pixels default the
intensity score to 1 (the lowest score) and the median to 0; with stained
pixels present, the intensity score is 3 minus the number of cut points
0.3/0.6 at or below the median (darker scores higher) and the reported
median is `np.median` of the masked gray values; zero total stained area
defaults the extent percent to 0 with no division; the combined score is
the sum, in 2..8; and the outcome is Negative iff it is at most 2, Low
Positive iff it equals 3, Positive iff it is at least 4. -/
theorem er_scoring_characterization (blueMask brownMask : BMask)
    (gray : List (List ℚ)) :
    (erScoring blueMask brownMask gray).staining_score =
        1 + ([(1 : ℚ), 10, 33, 66].countP
          (fun c => decide (c ≤ (erScoring blueMask brownMask gray).brown_cell_percent))) ∧
    1 ≤ (erScoring blueMask brownMask gray).staining_score ∧
    (erScoring blueMask brownMask gray).staining_score ≤ 5 ∧
    (maskArea brownMask = 0 →
      (erScoring blueMask brownMask gray).intensity_score = 1 ∧
      (erScoring blueMask brownMask gray).stain_intensity = 0) ∧
    (0 < (maskedValues gray brownMask).length →
      (erScoring blueMask brownMask gray).stain_intensity =
          npMedian (maskedValues gray brownMask) ∧
      (erScoring blueMask brownMask gray).intensity_score =
          3 - ([(3 : ℚ) / 10, 6 / 10].countP
            (fun c => decide (c ≤ npMedian (maskedValues gray brownMask))))) ∧
    ((erScoring blueMask brownMask gray).blue_area_percent +
        (erScoring blueMask brownMask gray).brown_area_percent = 0 →
      (erScoring blueMask brownMask gray).brown_cell_percent = 0) ∧
    (erScoring blueMask brownMask gray).total_score =
        (erScoring blueMask brownMask gray).staining_score +
          (erScoring blueMask brownMask gray).intensity_score ∧
    2 ≤ (erScoring blueMask brownMask gray).total_score ∧
    (erScoring blueMask brownMask gray).total_score ≤ 8 ∧
    ((erScoring blueMask brownMask gray).outcome = "Negative" ↔
      (erScoring blueMask brownMask gray).total_score ≤ 2) ∧
    ((erScoring blueMask brownMask gray).outcome = "Low Positive" ↔
      (erScoring blueMask brownMask gray).total_score = 3) ∧
    ((erScoring blueMask brownMask gray).outcome = "Positive" ↔
      4 ≤ (erScoring blueMask brownMask gray).total_score) := by
  have hstatus : (erScoring blueMask brownMask gray).staining_score =
      (if (erScoring blueMask brownMask gray).brown_cell_percent < 1 then 1
       else if (erScoring blueMask brownMask gray).brown_cell_percent < 10 then 2
       else if (erScoring blueMask brownMask gray).brown_cell_percent < 33 then 3
       else if (erScoring blueMask brownMask gray).brown_cell_percent < 66 then 4
       else 5) := rfl
  have hint : (erScoring blueMask brownMask gray).intensity_score =
      (if (maskedValues gray brownMask).length = 0 then 1
       else if npMedian (maskedValues gray brownMask) < 3 / 10 then 3
       else if npMedian (maskedValues gray brownMask) < 6 / 10 then 2
       else 1) := rfl
  have hmed : (erScoring blueMask brownMask gray).stain_intensity =
      (if (maskedValues gray brownMask).length = 0 then 0
       else npMedian (maskedValues gray brownMask)) := rfl
  have hcp : (erScoring blueMask brownMask gray).brown_cell_percent =
      (if 0 < (erScoring blueMask brownMask gray).blue_area_percent +
          (erScoring blueMask brownMask gray).brown_area_percent then
        ((erScoring blueMask brownMask gray).brown_area_percent /
          ((erScoring blueMask brownMask gray).blue_area_percent +
            (erScoring blueMask brownMask gray).brown_area_percent)) * 100
       else 0) := rfl
  have htot : (erScoring blueMask brownMask gray).total_score =
      (erScoring blueMask brownMask gray).staining_score +
        (erScoring blueMask brownMask gray).intensity_score := rfl
  have hout : (erScoring blueMask brownMask gray).outcome =
      (if (erScoring blueMask brownMask gray).total_score ≤ 2 then "Negative"
       else if (erScoring blueMask brownMask gray).total_score = 3 then "Low Positive"
       else "Positive") := rfl
  have hsrange : 1 ≤ (erScoring blueMask brownMask gray).staining_score ∧
      (erScoring blueMask brownMask gray).staining_score ≤ 5 := by
    rw [hstatus]; split_ifs <;> omega
  have hirange : 1 ≤ (erScoring blueMask brownMask gray).intensity_score ∧
      (erScoring blueMask brownMask gray).intensity_score ≤ 3 := by
    rw [hint]; split_ifs <;> omega
  refine ⟨?_, hsrange.1, hsrange.2, ?_, ?_, ?_, htot, ?_, ?_, ?_, ?_, ?_⟩
  · rw [hstatus, statusBucket]
  · intro hm0
    have hnil := maskedValues_nil_of_area_zero gray brownMask hm0
    constructor
    · rw [hint, hnil]; rfl
    · rw [hmed, hnil]; rfl
  · intro hpos
    have hne : ¬(maskedValues gray brownMask).length = 0 := by omega
    constructor
    · rw [hmed, if_neg hne]
    · rw [hint, if_neg hne, intensityBucket]
  · intro h0
    rw [hcp, if_neg (by rw [h0]; exact lt_irrefl 0)]
  · omega
  · omega
  · rw [hout]
    constructor
    · intro h
      by_contra hgt
      rw [if_neg hgt] at h
      split_ifs at h <;> exact absurd h (by decide)
    · intro h; rw [if_pos h]
  · rw [hout]
    constructor
    · intro h
      rcases le_or_lt (erScoring blueMask brownMask gray).total_score 2 with h2 | h2
      · rw [if_pos h2] at h; exact absurd h (by decide)
      · rw [if_neg (not_le.mpr h2)] at h
        by_cases h3 : (erScoring blueMask brownMask gray).total_score = 3
        · exact h3
        · rw [if_neg h3] at h; exact absurd h (by decide)
    · intro h
      rw [if_neg (by omega), if_pos h]
  · rw [hout]
    constructor
    · intro h
      rcases le_or_lt (erScoring blueMask brownMask gray).total_score 2 with h2 | h2
      · rw [if_pos h2] at h; exact absurd h (by decide)
      · by_cases h3 : (erScoring blueMask brownMask gray).total_score = 3
        · rw [if_neg (not_le.mpr h2), if_pos h3] at h; exact absurd h (by decide)
        · omega
    · intro h
      rw [if_neg (by omega), if_neg (by omega)]

/-- Witness for C7: on a 1-by-1 image whose blue mask is set and whose
brown mask is empty, the intensity score defaults to 1 and the median to
0. -/
theorem er_scoring_characterization_witness :
    (erScoring [[true]] [[false]] [[(1 : ℚ) / 2]]).intensity_score = 1 ∧
    (erScoring [[true]] [[false]] [[(1 : ℚ) / 2]]).stain_intensity = 0 :=
  (er_scoring_characterization [[true]] [[false]] [[(1 : ℚ) / 2]]).2.2.2.1 rfl

set_option maxHeartbeats 3200000 in
/-- C3: no pipeline's `process` mutates the caller's input buffer.  For
every content interpretation of the external array operations, every
branch of each `process` body, every store and every input buffer, the
traces of all five pipelines leave the input buffer's contents unchanged
and return a buffer distinct from the input: every in-place write
targets a buffer freshly allocated within the call (`result` /
`mask` / `clean_mask` / `mask_rgb` / `blended`), and the annotated result
is an explicit copy or a fresh blend. -/
theorem process_preserves_input_buffer {α : Type} (P1 : CellCountPrims α)
    (P2 : FluorescencePrims α) (P3 : ERPrims α) (P4 : NTPrims α)
    (P5 : NPPrims α) (u sc am si e3 esc n3 : Bool) (σ : Store α) (fid : ℕ)
    (h : fid < σ.size) :
    ((cellCountTrace P1 u sc σ fid).1.read fid = σ.read fid ∧
      (cellCountTrace P1 u sc σ fid).2 ≠ fid) ∧
    ((fluorescenceTrace P2 am si σ fid).1.read fid = σ.read fid ∧
      (fluorescenceTrace P2 am si σ fid).2 ≠ fid) ∧
    ((erTrace P3 e3 esc σ fid).1.read fid = σ.read fid ∧
      (erTrace P3 e3 esc σ fid).2 ≠ fid) ∧
    ((nottinghamTrace P4 σ fid).1.read fid = σ.read fid ∧
      (nottinghamTrace P4 σ fid).2 ≠ fid) ∧
    ((nuclearPleoTrace P5 n3 σ fid).1.read fid = σ.read fid ∧
      (nuclearPleoTrace P5 n3 σ fid).2 ≠ fid) := by
  refine ⟨⟨?_, ?_⟩, ⟨?_, ?_⟩, ⟨?_, ?_⟩, ⟨?_, ?_⟩, ⟨?_, ?_⟩⟩ <;>
    [cases u <;> cases sc; cases u <;> cases sc;
     cases am <;> cases si; cases am <;> cases si;
     cases e3 <;> cases esc; cases e3 <;> cases esc;
     skip; skip; cases n3; cases n3] <;>
    simp only [cellCountTrace, fluorescenceTrace, erTrace, nottinghamTrace,
      nuclearPleoTrace, Store.alloc1, Store.write, Store.read,
      Bool.false_eq_true, Bool.and_self, Bool.true_and, Bool.false_and,
      Bool.and_false, Bool.and_true, if_false, if_true] <;>
    (repeat rw [if_neg (by omega)]) <;>
    (try omega)

/-- Witness for C3: the five traces on a singleton store (buffer 0 holds
7) with all-constant content functions leave buffer 0 holding 7 and
return the index of another buffer. -/
theorem process_preserves_input_buffer_witness :
    ((cellCountTrace constCellCountPrims true true oneBufStore 0).1.read 0 =
        oneBufStore.read 0 ∧
      (cellCountTrace constCellCountPrims true true oneBufStore 0).2 ≠ 0) ∧
    ((fluorescenceTrace constFluorescencePrims true true oneBufStore 0).1.read 0 =
        oneBufStore.read 0 ∧
      (fluorescenceTrace constFluorescencePrims true true oneBufStore 0).2 ≠ 0) ∧
    ((erTrace constERPrims true true oneBufStore 0).1.read 0 =
        oneBufStore.read 0 ∧
      (erTrace constERPrims true true oneBufStore 0).2 ≠ 0) ∧
    ((nottinghamTrace constNTPrims oneBufStore 0).1.read 0 =
        oneBufStore.read 0 ∧
      (nottinghamTrace constNTPrims oneBufStore 0).2 ≠ 0) ∧
    ((nuclearPleoTrace constNPPrims true oneBufStore 0).1.read 0 =
        oneBufStore.read 0 ∧
      (nuclearPleoTrace constNPPrims true oneBufStore 0).2 ≠ 0) :=
  process_preserves_input_buffer constCellCountPrims constFluorescencePrims
    constERPrims constNTPrims constNPPrims true true true true true true true
    oneBufStore 0 (by decide)

end PathoAssist
